import Mathlib

/-
Shallow embedding of the Quant Engine of backend/app/quant/worker_b.py.

Modelling conventions:
  * Python floats are modelled by exact rationals (ℚ); `round(x, k)` is
    modelled by rounding `x * 10^k` to the nearest integer.
  * A possibly-missing numeric field (Python `None`) is an `Option`.
  * Python truthiness on a numeric value (`if not x: ...`) is `none` or `0`.
  * A function that can raise an uncaught exception returns `Except Unit _`,
    with `Except.error ()` standing for the propagated exception.
  * The float power `(1 + y) ** n` of the duration formula has an irrational
    value for fractional `n` and is therefore passed as an explicit power
    function `pw`; theorems constrain it only by `1 < pw (1 + y) n`, which
    the real power satisfies whenever `y > 0` and `n > 0`.
  * A security description string is modelled as the list of its
    hyphen-split parts, each part given as its parsed numeric value
    (`none` when the part does not parse as a number).
-/

namespace WorkerB

/-- Python `round(x, 2)` on an exact rational. -/
def round2 (x : ℚ) : ℚ := (round (x * 100) : ℚ) / 100

/-- Python `round(x, 4)` on an exact rational. -/
def round4 (x : ℚ) : ℚ := (round (x * 10000) : ℚ) / 10000

/-- Python truthiness of an optional float: `False` for `None` and `0`. -/
def truthyQ (o : Option ℚ) : Bool :=
  match o with
  | none => false
  | some v => decide (v ≠ 0)

/-- Python truthiness of an optional int: `False` for `None` and `0`. -/
def truthyZ (o : Option ℤ) : Bool :=
  match o with
  | none => false
  | some v => decide (v ≠ 0)

/-- Result dictionary of `calculate_tbill_yields` (worker_b.py lines 94-98). -/
structure TBillYields where
  discount_yield : ℚ
  bond_equivalent_yield : ℚ
  ytm : ℚ
deriving DecidableEq

/-- Unrounded bond-equivalent yield of worker_b.py line 92:
`(discount / price) * (365 / days_to_maturity) * 100`. -/
def tbill_bey_raw (p : ℚ) (d : ℤ) : ℚ := (100 - p) / p * (365 / (d : ℚ)) * 100

/-- Unrounded discount yield of worker_b.py line 89:
`(discount / face_value) * (360 / days_to_maturity) * 100`. -/
def tbill_discount_raw (p : ℚ) (d : ℤ) : ℚ := (100 - p) / 100 * (360 / (d : ℚ)) * 100

/-- worker_b.py lines 74-98, `calculate_tbill_yields`.  The guard is
`if not price or not days_to_maturity or days_to_maturity <= 0: return {}`;
the empty dictionary is modelled by `none`. -/
def calculate_tbill_yields (price : Option ℚ) (days_to_maturity : Option ℤ) :
    Option TBillYields :=
  if truthyQ price = false ∨ truthyZ days_to_maturity = false ∨
      days_to_maturity.getD 0 ≤ 0 then
    none
  else
    let p := price.getD 0
    let d := days_to_maturity.getD 0
    some { discount_yield := round4 (tbill_discount_raw p d)
           bond_equivalent_yield := round4 (tbill_bey_raw p d)
           ytm := round4 (tbill_bey_raw p d) }

/-- worker_b.py lines 38-47, the fixed maturity bucket table. -/
def MATURITY_BUCKETS : List (ℤ × ℤ × String) :=
  [(0, 91, "91D"), (92, 182, "182D"), (183, 365, "1Y"), (366, 730, "2Y"),
   (731, 1095, "3Y"), (1096, 1825, "5Y"), (1826, 3650, "10Y"), (3651, 7300, "20Y")]

/-- worker_b.py lines 65-70, `get_maturity_bucket`: first matching row of the
table, else `"20Y+"`. -/
def get_maturity_bucket (days : ℤ) : String :=
  match MATURITY_BUCKETS.find? (fun t => decide (t.1 ≤ days ∧ days ≤ t.2.1)) with
  | some t => t.2.2
  | none => "20Y+"

/-- worker_b.py lines 184-196, `calculate_liquidity_score`.  Note the guard is
`if volume is None`, an identity test, so a volume of `0` reaches the
threshold comparisons. -/
def calculate_liquidity_score (volume : Option ℚ) (hl_spread : Option ℚ) : String :=
  match volume with
  | none => "LOW"
  | some v =>
    if v > 10000000 then "HIGH"
    else if v > 1000000 then "MEDIUM"
    else "LOW"

/-- worker_b.py line 34, `GHANA_INFLATION_RATE`. -/
def GHANA_INFLATION_RATE : ℚ := 23.2

/-- worker_b.py line 59, `VOLUME_SPIKE_THRESHOLD`. -/
def VOLUME_SPIKE_THRESHOLD : ℚ := 3

/-- worker_b.py lines 100-124, `calculate_bond_ytm`: simplified
current-yield-plus-capital-gain approximation, `None` when preconditions
fail. -/
def calculate_bond_ytm (price : Option ℚ) (coupon_rate : Option ℚ)
    (days_to_maturity : Option ℤ) : Option ℚ :=
  if truthyQ price = false ∨ price.getD 0 ≤ 0 ∨
      truthyZ days_to_maturity = false ∨ days_to_maturity.getD 0 ≤ 0 then
    none
  else
    let p := price.getD 0
    let years : ℚ := (days_to_maturity.getD 0 : ℚ) / 365
    if years ≤ 0 then none
    else
      let coupon := if truthyQ coupon_rate then coupon_rate.getD 0 else 0
      let capital_gain_per_year := (100 - p) / years
      let avg_price := (100 + p) / 2
      some (round4 ((coupon + capital_gain_per_year) / avg_price * 100))

/-- worker_b.py lines 126-146, `extract_coupon_from_description`: scanning the
hyphen-split parts right to left, the first part parsing to a number strictly
between 0 and 100 is the coupon.  The description is modelled as the list of
its parts, each given as its parsed numeric value. -/
def extract_coupon_from_description (desc : Option (List (Option ℚ))) : Option ℚ :=
  match desc with
  | none => none
  | some parts =>
    parts.reverse.findSome? fun part =>
      match part with
      | some v => if 0 < v ∧ v < 100 then some v else none
      | none => none

/-- worker_b.py line 171, the closed-form Macaulay duration approximation,
with `p` standing for the float power `(1 + y) ** n`. -/
def mac_closed (y n c p : ℚ) : ℚ :=
  (1 + y) / y - (1 + y + n * (c - y)) / (c * (p - 1) + y)

/-- worker_b.py lines 150-180, `calculate_modified_duration`.  `pw` supplies
the value of the float power `(1 + y) ** n` (line 171).  Line 171 runs
outside the `try`, so a `ZeroDivisionError` there (denominator of the
closed form equal to zero, or `y = 0`) propagates: it is modelled by
`Except.error ()`.  The `try` of lines 174-180 covers only the range check
and the division by `1 + y`; its `except` (line 179-180) returns
`round(n * 0.7, 2)`. -/
def calculate_modified_duration (pw : ℚ → ℚ → ℚ) (ytm : Option ℚ)
    (years_to_maturity : Option ℚ) (coupon_rate : Option ℚ) :
    Except Unit (Option ℚ) :=
  if truthyQ ytm = false ∨ ytm.getD 0 ≤ 0 ∨
      truthyQ years_to_maturity = false ∨ years_to_maturity.getD 0 ≤ 0 then
    .ok none
  else if truthyQ coupon_rate = false then
    .ok (some (round2 (years_to_maturity.getD 0)))
  else
    let y := ytm.getD 0 / 100
    let n := years_to_maturity.getD 0
    let c := coupon_rate.getD 0 / 100
    let p := pw (1 + y) n
    if y = 0 ∨ c * (p - 1) + y = 0 then .error ()
    else
      let mac := mac_closed y n c p
      let macGuarded := if mac < 0 ∨ mac > n then 0.8 * n else mac
      if 1 + y = 0 then .ok (some (round2 (0.7 * n)))
      else .ok (some (round2 (macGuarded / (1 + y))))

/-- Row of the `market_alerts` table (the free-text `alert_message` is not
modelled). -/
structure AlertRec where
  date : String
  isin : String
  alert_type : String
  severity : String
deriving DecidableEq

/-- Raw Bronze-Layer trade row as read by the per-type builders. -/
structure RawRecord where
  isin : String
  closing_price : Option ℚ
  closing_yield : Option ℚ
  day_high_yield : Option ℚ
  day_low_yield : Option ℚ
  volume : Option ℚ
  volume_traded : Option ℚ
  days_to_maturity : Option ℤ
  security_description : Option (List (Option ℚ))
deriving DecidableEq

/-- Metric dictionary emitted by `process_gog_bonds` (worker_b.py 234-245). -/
structure GogMetric where
  date : String
  isin : String
  security_type : String
  ytm : Option ℚ
  real_yield : Option ℚ
  coupon_rate : Option ℚ
  volume : Option ℚ
  hl_spread : Option ℚ
  liquidity_score : String
  modified_duration : Option ℚ
deriving DecidableEq

/-- Metric dictionary emitted by `process_corporate` (worker_b.py 324-334). -/
structure CorpMetric where
  date : String
  isin : String
  security_type : String
  ytm : Option ℚ
  real_yield : Option ℚ
  coupon_rate : Option ℚ
  volume : Option ℚ
  liquidity_score : String
  modified_duration : Option ℚ
deriving DecidableEq

/-- worker_b.py lines 215-219: the GOG ytm is the bond calculator's result
when price and days are truthy, else the raw `closing_yield`; then
`if not ytm:` falls back to `closing_yield` again. -/
def gog_ytm (r : RawRecord) : Option ℚ :=
  let ytm0 := if truthyQ r.closing_price && truthyZ r.days_to_maturity then
      calculate_bond_ytm r.closing_price
        (extract_coupon_from_description r.security_description)
        r.days_to_maturity
    else r.closing_yield
  if truthyQ ytm0 then ytm0 else r.closing_yield

/-- worker_b.py lines 311-315: the corporate ytm is the bond calculator's
result when price and days are truthy, else `None`; then `if not ytm:` falls
back to `day_high_yield`. -/
def corporate_ytm (r : RawRecord) : Option ℚ :=
  let ytm0 := if truthyQ r.closing_price && truthyZ r.days_to_maturity then
      calculate_bond_ytm r.closing_price
        (extract_coupon_from_description r.security_description)
        r.days_to_maturity
    else none
  if truthyQ ytm0 then ytm0 else r.day_high_yield

/-- Loop body of `process_gog_bonds` (worker_b.py lines 208-245) for one raw
row.  The surrounding `try`/`except` skips a row whose processing raises
(here: only an uncaught error of `calculate_modified_duration`), modelled by
`none`. -/
def process_gog_row (pw : ℚ → ℚ → ℚ) (trade_date : String)
    (security_type : String) (r : RawRecord) : Option GogMetric :=
  let days := r.days_to_maturity
  let coupon := extract_coupon_from_description r.security_description
  let ytm := gog_ytm r
  let real_yield := if truthyQ ytm then
      some (round2 (ytm.getD 0 - GHANA_INFLATION_RATE)) else none
  let hl_spread := if truthyQ r.day_high_yield && truthyQ r.day_low_yield then
      some (round4 |r.day_high_yield.getD 0 - r.day_low_yield.getD 0|) else none
  let volume := r.volume
  let years := if truthyZ days then some ((days.getD 0 : ℚ) / 365) else none
  let md := if truthyQ ytm && truthyQ years then
      calculate_modified_duration pw ytm years coupon else .ok none
  match md with
  | .error _ => none
  | .ok d =>
    some { date := trade_date, isin := r.isin, security_type := security_type,
           ytm := ytm, real_yield := real_yield, coupon_rate := coupon,
           volume := volume, hl_spread := hl_spread,
           liquidity_score := calculate_liquidity_score volume hl_spread,
           modified_duration := d }

/-- Loop body of `process_corporate` (worker_b.py lines 304-334) for one raw
row.  With no price the calculator is skipped (`else None`), and the only
fallback is `r.get("day_high_yield")` (line 315). -/
def process_corporate_row (pw : ℚ → ℚ → ℚ) (trade_date : String)
    (r : RawRecord) : Option CorpMetric :=
  let days := r.days_to_maturity
  let coupon := extract_coupon_from_description r.security_description
  let ytm := corporate_ytm r
  let real_yield := if truthyQ ytm then
      some (round2 (ytm.getD 0 - GHANA_INFLATION_RATE)) else none
  let volume := r.volume_traded
  let years := if truthyZ days then some ((days.getD 0 : ℚ) / 365) else none
  let md := if truthyQ ytm && truthyQ years then
      calculate_modified_duration pw ytm years coupon else .ok none
  match md with
  | .error _ => none
  | .ok d =>
    some { date := trade_date, isin := r.isin, security_type := "CORPORATE",
           ytm := ytm, real_yield := real_yield, coupon_rate := coupon,
           volume := volume,
           liquidity_score := calculate_liquidity_score volume none,
           modified_duration := d }

/-- Slice of a normalized `security_metrics` record: the fields read and
written by `calculate_corporate_spreads`. -/
structure SpreadMetric where
  date : String
  isin : String
  security_type : String
  ytm : Option ℚ
  benchmark_yield : Option ℚ
  spread_vs_govt : Option ℚ
deriving DecidableEq

/-- Loop body of `calculate_corporate_spreads` (worker_b.py lines 448-468) for
one metric.  `days_to_maturity` is the value of the per-ISIN lookup and
`bucket_to_yield` the bucket-to-yield map built from the curve points.
Returns the (possibly updated) metric together with the alerts emitted for
it. -/
def calculate_corporate_spread_one (m : SpreadMetric) (days_to_maturity : Option ℤ)
    (bucket_to_yield : String → Option ℚ) : SpreadMetric × List AlertRec :=
  if m.security_type = "CORPORATE" ∧ truthyQ m.ytm = true then
    if truthyZ days_to_maturity = true then
      let bucket := get_maturity_bucket (days_to_maturity.getD 0)
      let benchmark := bucket_to_yield bucket
      if truthyQ benchmark = true then
        let b := benchmark.getD 0
        let spread := round4 (m.ytm.getD 0 - b)
        ({ m with benchmark_yield := some (round4 b), spread_vs_govt := some spread },
         if spread > 5 then
           [{ date := m.date, isin := m.isin, alert_type := "SPREAD_WIDENING",
              severity := "INFO" }]
         else [])
      else (m, [])
    else (m, [])
  else (m, [])

/-- Fields of a metric written by `detect_volume_spikes`, plus the alerts it
emits for that metric. -/
structure SpikeOut where
  liquidity_flag : Option String
  volume_avg_30d : Option ℚ
  volume_spike_flag : Option Bool
  alerts : List AlertRec
deriving DecidableEq

/-- worker_b.py line 503: `[r["volume"] for r in response.data if r.get("volume")]`.
Python truthiness keeps only rows whose volume is present and nonzero. -/
def historical_nonzero (rows : List (Option ℚ)) : List ℚ :=
  rows.filterMap fun o =>
    match o with
    | some v => if v ≠ 0 then some v else none
    | none => none

/-- Loop body of `detect_volume_spikes` (worker_b.py lines 483-520) for one
metric.  `history` is the result of the per-ISIN historical query (the
volume field of each of the up-to-30 most recent rows excluding today,
ordered by date descending). -/
def detect_volume_spike_one (trade_date : String) (isin : String)
    (today_volume : Option ℚ) (history : List (Option ℚ)) : SpikeOut :=
  if truthyQ today_volume = false ∨ today_volume.getD 0 ≤ 0 then
    { liquidity_flag := some "STALE", volume_avg_30d := none,
      volume_spike_flag := none, alerts := [] }
  else
    let v := today_volume.getD 0
    let hv := historical_nonzero history
    if hv = [] then
      { liquidity_flag := some "ACTIVE", volume_avg_30d := none,
        volume_spike_flag := none, alerts := [] }
    else
      let avg := hv.sum / (hv.length : ℚ)
      if avg > 0 ∧ v ≥ avg * VOLUME_SPIKE_THRESHOLD then
        { liquidity_flag := some "ACTIVE", volume_avg_30d := some (round2 avg),
          volume_spike_flag := some true,
          alerts := [{ date := trade_date, isin := isin,
                       alert_type := "VOLUME_SPIKE", severity := "WARNING" }] }
      else
        { liquidity_flag := some "ACTIVE", volume_avg_30d := some (round2 avg),
          volume_spike_flag := some false, alerts := [] }

/-! Helper lemmas shared by several claim theorems. -/

lemma truthyQ_none : truthyQ none = false := rfl

lemma truthyQ_some (v : ℚ) : truthyQ (some v) = decide (v ≠ 0) := rfl

lemma gog_ytm_of_calc_none (r : RawRecord)
    (hcalc : calculate_bond_ytm r.closing_price
      (extract_coupon_from_description r.security_description)
      r.days_to_maturity = none) : gog_ytm r = r.closing_yield := by
  by_cases hc : (truthyQ r.closing_price && truthyZ r.days_to_maturity) = true
  · simp only [gog_ytm, hc, if_true, hcalc, truthyQ_none, Bool.false_eq_true,
      if_false]
  · rw [Bool.not_eq_true] at hc
    simp only [gog_ytm, hc, Bool.false_eq_true, if_false, ite_self]

lemma corporate_ytm_of_calc_none (r : RawRecord)
    (hcalc : calculate_bond_ytm r.closing_price
      (extract_coupon_from_description r.security_description)
      r.days_to_maturity = none) : corporate_ytm r = r.day_high_yield := by
  by_cases hc : (truthyQ r.closing_price && truthyZ r.days_to_maturity) = true
  · simp only [corporate_ytm, hc, if_true, hcalc, truthyQ_none,
      Bool.false_eq_true, if_false]
  · rw [Bool.not_eq_true] at hc
    simp only [corporate_ytm, hc, Bool.false_eq_true, if_false, truthyQ_none]

lemma process_gog_row_ytm (pw : ℚ → ℚ → ℚ) (dt st : String) (r : RawRecord)
    (m : GogMetric) (h : process_gog_row pw dt st r = some m) :
    m.ytm = gog_ytm r := by
  simp only [process_gog_row] at h
  split at h
  · exact absurd h (by simp)
  · rw [Option.some.injEq] at h
    subst h
    rfl

lemma process_corporate_row_ytm (pw : ℚ → ℚ → ℚ) (dt : String) (r : RawRecord)
    (m : CorpMetric) (h : process_corporate_row pw dt r = some m) :
    m.ytm = corporate_ytm r := by
  simp only [process_corporate_row] at h
  split at h
  · exact absurd h (by simp)
  · rw [Option.some.injEq] at h
    subst h
    rfl

lemma round4_le_round4 {x y : ℚ} (h : x ≤ y) : round4 x ≤ round4 y := by
  unfold round4
  have hr : round (x * 10000) ≤ round (y * 10000) := by
    rw [round_eq, round_eq]
    exact Int.floor_le_floor (by linarith)
  have : ((round (x * 10000) : ℤ) : ℚ) ≤ ((round (y * 10000) : ℤ) : ℚ) := by
    exact_mod_cast hr
  linarith

lemma round4_sub_eq {y b : ℚ} (hy : round4 y = y) (hb : round4 b = b) :
    round4 (y - b) = y - b := by
  unfold round4 at *
  rw [div_eq_iff (by norm_num : (10000 : ℚ) ≠ 0)] at hy hb
  have h1 : (y - b) * 10000 = ((round (y * 10000) - round (b * 10000) : ℤ) : ℚ) := by
    push_cast
    rw [hy, hb]
    ring
  rw [h1, round_intCast]
  push_cast
  rw [hy, hb]
  ring

lemma calculate_tbill_yields_pos (p : ℚ) (d : ℤ) (hp : 0 < p) (hd : 0 < d) :
    calculate_tbill_yields (some p) (some d) =
      some { discount_yield := round4 (tbill_discount_raw p d)
             bond_equivalent_yield := round4 (tbill_bey_raw p d)
             ytm := round4 (tbill_bey_raw p d) } := by
  have hp0 : p ≠ 0 := ne_of_gt hp
  have hd0 : d ≠ 0 := ne_of_gt hd
  simp [calculate_tbill_yields, truthyQ, truthyZ, hp0, hd0, not_le.mpr hd]

/-! Claim theorems. -/

/-- C1 (amended): for present positive price and days the T-bill calculator
returns `discount_yield = round4 ((100-p)/100 * (360/d) * 100)`,
`bond_equivalent_yield = round4 ((100-p)/p * (365/d) * 100)` and
`ytm = bond_equivalent_yield`; the result is empty when price is missing or
zero or days is missing or non-positive (a negative price is not rejected);
at `p = 96.5`, `d = 91` it returns `discount_yield = 13.8462` and
`bond_equivalent_yield = 14.5476`. -/
theorem calculate_tbill_yields_spec (p : ℚ) (d : ℤ) (hp : 0 < p) (hd : 0 < d) :
    calculate_tbill_yields (some p) (some d) =
      some { discount_yield := round4 ((100 - p) / 100 * (360 / (d : ℚ)) * 100)
             bond_equivalent_yield := round4 ((100 - p) / p * (365 / (d : ℚ)) * 100)
             ytm := round4 ((100 - p) / p * (365 / (d : ℚ)) * 100) } ∧
    (∀ e : Option ℤ, calculate_tbill_yields none e = none) ∧
    (∀ e : Option ℤ, calculate_tbill_yields (some 0) e = none) ∧
    (∀ q : Option ℚ, calculate_tbill_yields q none = none) ∧
    (∀ (q : Option ℚ) (k : ℤ), k ≤ 0 → calculate_tbill_yields q (some k) = none) ∧
    calculate_tbill_yields (some 96.5) (some 91) =
      some { discount_yield := 13.8462, bond_equivalent_yield := 14.5476,
             ytm := 14.5476 } := by
  refine ⟨calculate_tbill_yields_pos p d hp hd, ?_, ?_, ?_, ?_, ?_⟩
  · intro e; simp [calculate_tbill_yields, truthyQ]
  · intro e; simp [calculate_tbill_yields, truthyQ]
  · intro q; simp [calculate_tbill_yields, truthyQ, truthyZ]
  · intro q k hk
    rcases eq_or_ne k 0 with h0 | h0
    · simp [calculate_tbill_yields, truthyQ, truthyZ, h0]
    · simp [calculate_tbill_yields, truthyQ, truthyZ, h0, hk]
  · rw [calculate_tbill_yields_pos 96.5 91 (by norm_num) (by norm_num)]
    simp only [tbill_discount_raw, tbill_bey_raw, round4]
    norm_num [round_eq]

/-- Witness for C1: the first conjunct of the amended claim evaluated at
`p = 50`, `d = 365`. -/
theorem calculate_tbill_yields_spec_witness :
    calculate_tbill_yields (some 50) (some 365) =
      some { discount_yield := round4 ((100 - 50) / 100 * (360 / (365 : ℚ)) * 100)
             bond_equivalent_yield := round4 ((100 - 50) / 50 * (365 / (365 : ℚ)) * 100)
             ytm := round4 ((100 - 50) / 50 * (365 / (365 : ℚ)) * 100) } :=
  (calculate_tbill_yields_spec 50 365 (by norm_num) (by norm_num)).1

/-- Counterexample for C1 as stated: a negative price is not rejected (the
guard tests Python truthiness, not sign), and at `p = 96.5`, `d = 91` the
bond-equivalent yield is `14.5476`, not the claimed `14.5455`. -/
theorem calculate_tbill_yields_counterexample :
    calculate_tbill_yields (some (-5)) (some 91) ≠ none ∧
    (calculate_tbill_yields (some 96.5) (some 91)).map TBillYields.bond_equivalent_yield =
      some 14.5476 ∧
    (14.5476 : ℚ) ≠ 14.5455 := by
  refine ⟨?_, ?_, by norm_num⟩
  · simp [calculate_tbill_yields, truthyQ, truthyZ]
  · rw [calculate_tbill_yields_pos 96.5 91 (by norm_num) (by norm_num)]
    simp only [tbill_bey_raw, round4, Option.map_some]
    norm_num [round_eq]

/-- C9 (amended): for fixed days `d > 0` and `0 < p1 < p2 < 100`, the
unrounded bond-equivalent yield at `p1` is strictly greater than at `p2`;
after the 4-decimal rounding the returned values are related by `≥` (not
necessarily strictly), and the calculator returns a (finite rational) result
for every such input. -/
theorem bey_strict_mono_unrounded (p1 p2 : ℚ) (d : ℤ)
    (h1 : 0 < p1) (h12 : p1 < p2) (h2 : p2 < 100) (hd : 0 < d) :
    tbill_bey_raw p2 d < tbill_bey_raw p1 d ∧
    round4 (tbill_bey_raw p2 d) ≤ round4 (tbill_bey_raw p1 d) ∧
    ∃ y1 y2 : TBillYields,
      calculate_tbill_yields (some p1) (some d) = some y1 ∧
      calculate_tbill_yields (some p2) (some d) = some y2 ∧
      y2.bond_equivalent_yield ≤ y1.bond_equivalent_yield := by
  have h2' : 0 < p2 := lt_trans h1 h12
  have hdq : (0 : ℚ) < (d : ℚ) := by exact_mod_cast hd
  have hk : (0 : ℚ) < 365 / (d : ℚ) := div_pos (by norm_num) hdq
  have hmono : tbill_bey_raw p2 d < tbill_bey_raw p1 d := by
    unfold tbill_bey_raw
    have hfrac : (100 - p2) / p2 < (100 - p1) / p1 := by
      rw [div_lt_div_iff h2' h1]
      nlinarith
    have := mul_lt_mul_of_pos_right hfrac hk
    exact mul_lt_mul_of_pos_right this (by norm_num)
  refine ⟨hmono, round4_le_round4 (le_of_lt hmono), ?_⟩
  refine ⟨_, _, calculate_tbill_yields_pos p1 d h1 hd,
    calculate_tbill_yields_pos p2 d h2' hd, ?_⟩
  exact round4_le_round4 (le_of_lt hmono)

/-- Witness for C9: the amended claim evaluated at `p1 = 25`, `p2 = 50`,
`d = 365`. -/
theorem bey_strict_mono_unrounded_witness :
    tbill_bey_raw 50 365 < tbill_bey_raw 25 365 ∧
    round4 (tbill_bey_raw 50 365) ≤ round4 (tbill_bey_raw 25 365) ∧
    ∃ y1 y2 : TBillYields,
      calculate_tbill_yields (some 25) (some 365) = some y1 ∧
      calculate_tbill_yields (some 50) (some 365) = some y2 ∧
      y2.bond_equivalent_yield ≤ y1.bond_equivalent_yield :=
  bey_strict_mono_unrounded 25 50 365 (by norm_num) (by norm_num) (by norm_num)
    (by norm_num)

/-- Counterexample for C9 as stated: the returned bond-equivalent yield is
rounded to 4 decimals, so it is not strictly monotone in the price: at
`d = 365` the prices `50` and `50.000001` (both in `(0, 100)`, in strict
order) give the identical returned value. -/
theorem bey_strict_mono_counterexample :
    (0 : ℚ) < 50 ∧ (50 : ℚ) < 50.000001 ∧ (50.000001 : ℚ) < 100 ∧ (0 : ℤ) < 365 ∧
    (calculate_tbill_yields (some 50) (some 365)).map TBillYields.bond_equivalent_yield =
      (calculate_tbill_yields (some 50.000001) (some 365)).map
        TBillYields.bond_equivalent_yield := by
  refine ⟨by norm_num, by norm_num, by norm_num, by norm_num, ?_⟩
  rw [calculate_tbill_yields_pos 50 365 (by norm_num) (by norm_num),
    calculate_tbill_yields_pos 50.000001 365 (by norm_num) (by norm_num)]
  simp only [tbill_bey_raw, round4, Option.map_some]
  norm_num [round_eq]

/-- C10: the liquidity classifier's result depends only on the volume
argument; the `hl_spread` argument never influences the classification. -/
theorem calculate_liquidity_score_ignores_hl_spread (v s1 s2 : Option ℚ) :
    calculate_liquidity_score v s1 = calculate_liquidity_score v s2 := rfl

/-- C6: with coupon rate zero or absent, the duration calculator returns
exactly the years-to-maturity rounded to 2 decimals, for every positive ytm
and positive years-to-maturity, independently of the power function. -/
theorem duration_zero_coupon (pw : ℚ → ℚ → ℚ) (ytm n : ℚ)
    (hy : 0 < ytm) (hn : 0 < n) :
    calculate_modified_duration pw (some ytm) (some n) none =
      Except.ok (some (round2 n)) ∧
    calculate_modified_duration pw (some ytm) (some n) (some 0) =
      Except.ok (some (round2 n)) := by
  have hy0 : ytm ≠ 0 := ne_of_gt hy
  have hn0 : n ≠ 0 := ne_of_gt hn
  constructor <;>
    simp [calculate_modified_duration, truthyQ, hy0, hn0, not_le.mpr hy, not_le.mpr hn]

/-- Witness for C6: `ytm = 10`, `years = 2.5`, coupon absent. -/
theorem duration_zero_coupon_witness :
    calculate_modified_duration (fun _ _ => 2) (some 10) (some 2.5) none =
      Except.ok (some (round2 2.5)) :=
  (duration_zero_coupon (fun _ _ => 2) 10 2.5 (by norm_num) (by norm_num)).1

/-- C2: for every coupon-bearing input (`ytm > 0`, `years n > 0`,
`coupon c > 0`) the duration calculator never propagates an error (the
closed-form denominator `c/100 * (p - 1) + ytm/100` is positive whenever the
power value `p` exceeds 1, as the real float power does), and whenever the
closed-form Macaulay value is negative or exceeds `n` the function instead
returns `round2 (0.8 * n / (1 + ytm/100))`, i.e. it substitutes `0.8 * n`
before dividing by `1 + ytm/100`. -/
theorem duration_guard_rails (pw : ℚ → ℚ → ℚ) (ytm n c : ℚ)
    (hy : 0 < ytm) (hn : 0 < n) (hc : 0 < c) (hp : 1 < pw (1 + ytm / 100) n) :
    calculate_modified_duration pw (some ytm) (some n) (some c) ≠
      Except.error () ∧
    (mac_closed (ytm / 100) n (c / 100) (pw (1 + ytm / 100) n) < 0 ∨
        n < mac_closed (ytm / 100) n (c / 100) (pw (1 + ytm / 100) n) →
      calculate_modified_duration pw (some ytm) (some n) (some c) =
        Except.ok (some (round2 (0.8 * n / (1 + ytm / 100))))) := by
  have hy0 : ytm ≠ 0 := ne_of_gt hy
  have hn0 : n ≠ 0 := ne_of_gt hn
  have hc0 : c ≠ 0 := ne_of_gt hc
  have hyq : (0 : ℚ) < ytm / 100 := by positivity
  have hden : 0 < c / 100 * (pw (1 + ytm / 100) n - 1) + ytm / 100 := by
    have h1 : 0 < c / 100 * (pw (1 + ytm / 100) n - 1) := by
      apply mul_pos (by positivity)
      linarith
    linarith
  have hdne : c / 100 * (pw (1 + ytm / 100) n - 1) + ytm / 100 ≠ 0 :=
    ne_of_gt hden
  have h1y : ¬(1 + ytm / 100 = 0) := by intro h; linarith
  constructor
  · simp [calculate_modified_duration, truthyQ, hy0, hn0, hc0, not_le.mpr hy,
      not_le.mpr hn, ne_of_gt hyq, hdne, h1y]
  · intro hout
    simp [calculate_modified_duration, truthyQ, hy0, hn0, hc0, not_le.mpr hy,
      not_le.mpr hn, ne_of_gt hyq, hdne, h1y, if_pos hout]

/-- Witness for C2: `pw` constantly `1000`, `ytm = 100`, `n = 1`, `c = 1`; the
closed-form value `2097/1099` exceeds `n = 1`, so the result is the `0.8 * n`
fallback divided by `1 + y`. -/
theorem duration_guard_rails_witness :
    calculate_modified_duration (fun _ _ => 1000) (some 100) (some 1) (some 1) ≠
      Except.error () ∧
    calculate_modified_duration (fun _ _ => 1000) (some 100) (some 1) (some 1) =
      Except.ok (some (round2 (0.8 * 1 / (1 + 100 / 100)))) :=
  ⟨(duration_guard_rails (fun _ _ => 1000) 100 1 1 (by norm_num) (by norm_num)
      (by norm_num) (by norm_num)).1,
   (duration_guard_rails (fun _ _ => 1000) 100 1 1 (by norm_num) (by norm_num)
      (by norm_num) (by norm_num)).2
     (Or.inr (by norm_num [mac_closed]))⟩

/-- C7: bucket assignment is total on `days ≥ 0` and the table rows do not
overlap: at most one table row matches any such value, exactly one matches
when `days ≤ 7300` and the function returns that row's bucket, every
`days > 7300` maps to `"20Y+"`, and the boundaries satisfy
`91 ↦ "91D"`, `92 ↦ "182D"`. -/
theorem get_maturity_bucket_spec (d : ℤ) (hd : 0 ≤ d) :
    (MATURITY_BUCKETS.countP fun t => decide (t.1 ≤ d ∧ d ≤ t.2.1)) ≤ 1 ∧
    (d ≤ 7300 →
      (MATURITY_BUCKETS.countP fun t => decide (t.1 ≤ d ∧ d ≤ t.2.1)) = 1) ∧
    (∀ t ∈ MATURITY_BUCKETS, t.1 ≤ d → d ≤ t.2.1 →
      get_maturity_bucket d = t.2.2) ∧
    (7300 < d → get_maturity_bucket d = "20Y+") ∧
    get_maturity_bucket 91 = "91D" ∧
    get_maturity_bucket 92 = "182D" := by
  refine ⟨?_, ?_, ?_, ?_, by decide, by decide⟩
  · simp only [MATURITY_BUCKETS, List.countP_cons, List.countP_nil,
      decide_eq_true_eq]
    split_ifs <;> omega
  · intro h
    simp only [MATURITY_BUCKETS, List.countP_cons, List.countP_nil,
      decide_eq_true_eq]
    split_ifs <;> omega
  · intro t ht h1 h2
    fin_cases ht <;>
      · unfold get_maturity_bucket MATURITY_BUCKETS
        repeat rw [List.find?_cons_of_neg _ (by simp; omega)]
        rw [List.find?_cons_of_pos _ (by simp [h1, h2])]
  · intro h
    unfold get_maturity_bucket
    rw [List.find?_eq_none.mpr]
    intro t ht
    fin_cases ht <;> simp <;> omega

/-- Witness for C7: the theorem evaluated at `days = 50`. -/
theorem get_maturity_bucket_spec_witness :
    (MATURITY_BUCKETS.countP fun t => decide (t.1 ≤ 50 ∧ 50 ≤ t.2.1)) ≤ 1 ∧
    ((50 : ℤ) ≤ 7300 →
      (MATURITY_BUCKETS.countP fun t => decide (t.1 ≤ 50 ∧ 50 ≤ t.2.1)) = 1) ∧
    (∀ t ∈ MATURITY_BUCKETS, t.1 ≤ 50 → (50 : ℤ) ≤ t.2.1 →
      get_maturity_bucket 50 = t.2.2) ∧
    ((7300 : ℤ) < 50 → get_maturity_bucket 50 = "20Y+") ∧
    get_maturity_bucket 91 = "91D" ∧
    get_maturity_bucket 92 = "182D" :=
  get_maturity_bucket_spec 50 (by norm_num)

/-- C4: a metric with absent or zero volume is marked STALE and skipped (no
average, no spike flag, no alert); a metric with positive volume is marked
ACTIVE and, when the historical mean volume is positive, the spike flag is
true with exactly one WARNING VOLUME_SPIKE alert if and only if today's
volume is at least `3.0` times that mean (ties trigger), and false with no
alert otherwise. -/
theorem detect_volume_spike_spec (dt sid : String) (today : Option ℚ)
    (hist : List (Option ℚ)) :
    ((today = none ∨ today = some 0) →
      detect_volume_spike_one dt sid today hist =
        { liquidity_flag := some "STALE", volume_avg_30d := none,
          volume_spike_flag := none, alerts := [] }) ∧
    (∀ v : ℚ, today = some v → 0 < v →
      (detect_volume_spike_one dt sid today hist).liquidity_flag = some "ACTIVE" ∧
      (∀ avg : ℚ,
        avg = (historical_nonzero hist).sum / ((historical_nonzero hist).length : ℚ) →
        historical_nonzero hist ≠ [] → 0 < avg →
          (avg * VOLUME_SPIKE_THRESHOLD ≤ v →
            (detect_volume_spike_one dt sid today hist).volume_spike_flag =
              some true ∧
            (detect_volume_spike_one dt sid today hist).alerts =
              [{ date := dt, isin := sid, alert_type := "VOLUME_SPIKE",
                 severity := "WARNING" }]) ∧
          (v < avg * VOLUME_SPIKE_THRESHOLD →
            (detect_volume_spike_one dt sid today hist).volume_spike_flag =
              some false ∧
            (detect_volume_spike_one dt sid today hist).alerts = []))) := by
  constructor
  · rintro (h | h) <;> subst h <;> simp [detect_volume_spike_one, truthyQ]
  · rintro v rfl hv0
    have hvne : v ≠ 0 := ne_of_gt hv0
    constructor
    · have hcond : ¬(truthyQ (some v) = false ∨ (some v).getD 0 ≤ 0) := by
        simp [truthyQ, hvne, not_le.mpr hv0]
      unfold detect_volume_spike_one
      rw [if_neg hcond]
      dsimp only [Option.getD_some]
      split_ifs <;> rfl
    · rintro avg rfl hne hpos
      constructor
      · intro hge
        unfold detect_volume_spike_one
        simp [truthyQ, hvne, not_le.mpr hv0, hne, hpos, hge]
      · intro hlt
        unfold detect_volume_spike_one
        simp [truthyQ, hvne, not_le.mpr hv0, hne, hpos, not_le.mpr hlt]

/-- Witness for C4: today's volume 3,000,000 against a single historical
volume of 1,000,000 — the ratio is exactly 3.0, which triggers. -/
theorem detect_volume_spike_spec_witness :
    (detect_volume_spike_one "d" "A" (some 3000000) [some 1000000]).liquidity_flag =
      some "ACTIVE" ∧
    (detect_volume_spike_one "d" "A" (some 3000000) [some 1000000]).volume_spike_flag =
      some true ∧
    (detect_volume_spike_one "d" "A" (some 3000000) [some 1000000]).alerts =
      [{ date := "d", isin := "A", alert_type := "VOLUME_SPIKE",
         severity := "WARNING" }] := by
  have h := (detect_volume_spike_spec "d" "A" (some 3000000) [some 1000000]).2
    3000000 rfl (by norm_num)
  have h2 := (h.2 1000000
    (by norm_num [historical_nonzero, List.filterMap_cons, List.filterMap_nil])
    (by simp [historical_nonzero]) (by norm_num)).1
    (by norm_num [VOLUME_SPIKE_THRESHOLD])
  exact ⟨h.1, h2.1, h2.2⟩

/-- C8 (amended): for a metric with positive volume, `volume_avg_30d` is the
2-decimal-rounded arithmetic mean of the historical volumes that are present
and nonzero (Python truthiness excludes zero-volume rows along with missing
ones), set whenever at least one such volume exists. -/
theorem volume_avg_30d_eq (dt sid : String) (v : ℚ) (hist : List (Option ℚ))
    (hv : 0 < v) (hne : historical_nonzero hist ≠ []) :
    (detect_volume_spike_one dt sid (some v) hist).volume_avg_30d =
      some (round2 ((historical_nonzero hist).sum /
        ((historical_nonzero hist).length : ℚ))) := by
  have hvne : v ≠ 0 := ne_of_gt hv
  have hcond : ¬(truthyQ (some v) = false ∨ (some v).getD 0 ≤ 0) := by
    simp [truthyQ, hvne, not_le.mpr hv]
  unfold detect_volume_spike_one
  rw [if_neg hcond]
  dsimp only [Option.getD_some]
  rw [if_neg hne]
  split_ifs <;> rfl

/-- Witness for C8: history `[4, 8]`, mean `6`. -/
theorem volume_avg_30d_eq_witness :
    (detect_volume_spike_one "d" "B" (some 1) [some 4, some 8]).volume_avg_30d =
      some (round2 ((historical_nonzero [some 4, some 8]).sum /
        ((historical_nonzero [some 4, some 8]).length : ℚ))) :=
  volume_avg_30d_eq "d" "B" 1 [some 4, some 8] (by norm_num)
    (by simp [historical_nonzero])

/-- Counterexample for C8 as stated: a historical row with a recorded volume
of `0` is dropped by the truthiness filter, so with history `[0, 10]` the
code stores an average of `10`, while the claimed zero-inclusive mean is
`5`. -/
theorem volume_avg_counterexample :
    (detect_volume_spike_one "d" "A" (some 60) [some 0, some 10]).volume_avg_30d =
      some 10 ∧
    round2 (((0 : ℚ) + 10) / 2) = 5 ∧ ((10 : ℚ) ≠ 5) := by
  refine ⟨?_, by norm_num [round2, round_eq], by norm_num⟩
  simp only [detect_volume_spike_one, historical_nonzero, List.filterMap_cons,
    List.filterMap_nil, truthyQ]
  norm_num [round2, round_eq, VOLUME_SPIKE_THRESHOLD]

/-- C5: for a corporate metric with a known (nonzero) ytm, known nonzero
days-to-maturity and a (nonzero) benchmark yield at its bucket, the spread
calculator sets `benchmark_yield` and `spread_vs_govt = ytm - benchmark`,
and emits exactly one INFO SPREAD_WIDENING alert iff the spread strictly
exceeds 5.0 (a spread of exactly 5.0 emits none); with no benchmark for the
bucket the metric is unchanged and no alert is emitted.  The hypotheses
`round4 y = y` and `round4 b = b` record that metric ytms and curve yields
are already rounded to 4 decimals when this function receives them. -/
theorem corporate_spread_spec (m : SpreadMetric) (y b : ℚ) (d : ℤ)
    (bty : String → Option ℚ)
    (hm : m.security_type = "CORPORATE") (hym : m.ytm = some y) (hy0 : y ≠ 0)
    (hd0 : d ≠ 0)
    (hb : bty (get_maturity_bucket d) = some b) (hb0 : b ≠ 0)
    (hy4 : round4 y = y) (hb4 : round4 b = b) :
    (calculate_corporate_spread_one m (some d) bty).1.benchmark_yield = some b ∧
    (calculate_corporate_spread_one m (some d) bty).1.spread_vs_govt = some (y - b) ∧
    ((calculate_corporate_spread_one m (some d) bty).2 =
        [{ date := m.date, isin := m.isin, alert_type := "SPREAD_WIDENING",
           severity := "INFO" }] ↔ 5 < y - b) ∧
    (y - b = 5 → (calculate_corporate_spread_one m (some d) bty).2 = []) ∧
    (∀ bty2 : String → Option ℚ, bty2 (get_maturity_bucket d) = none →
      calculate_corporate_spread_one m (some d) bty2 = (m, [])) := by
  have hsub := round4_sub_eq hy4 hb4
  have hty : truthyQ m.ytm = true := by simp [truthyQ, hym, hy0]
  have htd : truthyZ (some d) = true := by simp [truthyZ, hd0]
  have htb : truthyQ (bty (get_maturity_bucket d)) = true := by
    simp [truthyQ, hb, hb0]
  have hty2 : truthyQ (some y) = true := by simp [truthyQ, hy0]
  have htb2 : truthyQ (some b) = true := by simp [truthyQ, hb0]
  refine ⟨?_, ?_, ?_, ?_, ?_⟩
  · simp [calculate_corporate_spread_one, hm, hty2, htd, hym, hb, htb2, hb4]
  · simp [calculate_corporate_spread_one, hm, hty2, htd, hym, hb, htb2, hsub]
  · simp only [calculate_corporate_spread_one, hm, hty2, htd, hym, hb, htb2,
      Option.getD_some, and_self, if_true, hsub]
    split_ifs with h <;> simp [h]
  · intro h5
    simp [calculate_corporate_spread_one, hm, hty2, htd, hym, hb, htb2, hsub, h5]
    norm_num [round4, round_eq]
  · intro bty2 h2n
    simp [calculate_corporate_spread_one, hm, hty2, htd, hym, h2n, truthyQ]

/-- Witness for C5: ytm 20.0 against a benchmark of 14.5, spread 5.5 > 5.0,
one INFO alert. -/
theorem corporate_spread_spec_witness :
    (calculate_corporate_spread_one
        { date := "2026-01-30", isin := "CB1", security_type := "CORPORATE",
          ytm := some 20, benchmark_yield := none, spread_vs_govt := none }
        (some 1000) (fun _ => some 14.5)).1.benchmark_yield = some 14.5 ∧
    (calculate_corporate_spread_one
        { date := "2026-01-30", isin := "CB1", security_type := "CORPORATE",
          ytm := some 20, benchmark_yield := none, spread_vs_govt := none }
        (some 1000) (fun _ => some 14.5)).1.spread_vs_govt = some (20 - 14.5) ∧
    (calculate_corporate_spread_one
        { date := "2026-01-30", isin := "CB1", security_type := "CORPORATE",
          ytm := some 20, benchmark_yield := none, spread_vs_govt := none }
        (some 1000) (fun _ => some 14.5)).2 =
      [{ date := "2026-01-30", isin := "CB1", alert_type := "SPREAD_WIDENING",
         severity := "INFO" }] := by
  have h := corporate_spread_spec
    { date := "2026-01-30", isin := "CB1", security_type := "CORPORATE",
      ytm := some 20, benchmark_yield := none, spread_vs_govt := none }
    20 14.5 1000 (fun _ => some 14.5) rfl rfl (by norm_num) (by norm_num) rfl
    (by norm_num) (by norm_num [round4, round_eq]) (by norm_num [round4, round_eq])
  exact ⟨h.1, h.2.1, h.2.2.1.mpr (by norm_num)⟩

/-- C3 (amended): when the bond-YTM calculator yields no value, a GOG row's
metric ytm falls back to the raw record's `closing_yield`; a corporate row's
metric ytm falls back directly to `day_high_yield` (the corporate builder
never consults `closing_yield`). -/
theorem ytm_fallback (pw : ℚ → ℚ → ℚ) (dt st : String) (r : RawRecord)
    (hcalc : calculate_bond_ytm r.closing_price
      (extract_coupon_from_description r.security_description)
      r.days_to_maturity = none) :
    (∀ m : GogMetric, process_gog_row pw dt st r = some m →
      m.ytm = r.closing_yield) ∧
    (∀ m : CorpMetric, process_corporate_row pw dt r = some m →
      m.ytm = r.day_high_yield) := by
  constructor
  · intro m hm
    rw [process_gog_row_ytm pw dt st r m hm, gog_ytm_of_calc_none r hcalc]
  · intro m hm
    rw [process_corporate_row_ytm pw dt r m hm, corporate_ytm_of_calc_none r hcalc]

/-- Witness for C3: a GOG row with no price (so the calculator yields
nothing) and `closing_yield = 15` produces a metric whose ytm is 15. -/
theorem ytm_fallback_witness :
    process_gog_row (fun _ _ => 0) "d" "GOG_BOND"
        ⟨"G1", none, some 15, some 16, none, some 5, none, none, none⟩ =
      some { date := "d", isin := "G1", security_type := "GOG_BOND",
             ytm := some 15, real_yield := some (-8.2), coupon_rate := none,
             volume := some 5, hl_spread := none, liquidity_score := "LOW",
             modified_duration := none } ∧
    ({ date := "d", isin := "G1", security_type := "GOG_BOND",
       ytm := some 15, real_yield := some (-8.2), coupon_rate := none,
       volume := some 5, hl_spread := none, liquidity_score := "LOW",
       modified_duration := none } : GogMetric).ytm = some 15 := by
  have hev : process_gog_row (fun _ _ => 0) "d" "GOG_BOND"
      ⟨"G1", none, some 15, some 16, none, some 5, none, none, none⟩ =
    some { date := "d", isin := "G1", security_type := "GOG_BOND",
           ytm := some 15, real_yield := some (-8.2), coupon_rate := none,
           volume := some 5, hl_spread := none, liquidity_score := "LOW",
           modified_duration := none } := by
    norm_num [process_gog_row, gog_ytm, calculate_bond_ytm, truthyQ, truthyZ,
      extract_coupon_from_description, calculate_liquidity_score,
      calculate_modified_duration, round2, round_eq, GHANA_INFLATION_RATE]
  exact ⟨hev,
    (ytm_fallback (fun _ _ => 0) "d" "GOG_BOND"
        ⟨"G1", none, some 15, some 16, none, some 5, none, none, none⟩
        (by norm_num [calculate_bond_ytm, truthyQ, truthyZ])).1 _ hev⟩

/-- Counterexample for C3 as stated: a corporate row with no price,
`closing_yield = 15` and `day_high_yield = 16` gets ytm `16`, not the
claimed primary fallback `closing_yield = 15`. -/
theorem ytm_fallback_counterexample :
    (process_corporate_row (fun _ _ => 0) "d"
        ⟨"C1", none, some 15, some 16, none, none, some 7, none, none⟩).map
      CorpMetric.ytm = some (some 16) ∧
    (⟨"C1", none, some 15, some 16, none, none, some 7, none,
        none⟩ : RawRecord).closing_yield = some 15 ∧
    ((16 : ℚ) ≠ 15) := by
  refine ⟨?_, rfl, by norm_num⟩
  norm_num [process_corporate_row, corporate_ytm, calculate_bond_ytm, truthyQ,
    truthyZ, extract_coupon_from_description, calculate_liquidity_score,
    calculate_modified_duration, round2, round_eq, GHANA_INFLATION_RATE]

end WorkerB
